import Mathlib

/-!
Verification development for the animal-shelter-insights ingestion core.

Shallow embedding of:
  - src/database.py   (Animal model, DatabaseManager.save_animal and helpers)
  - src/petfinder_api.py (PetfinderAPI.authenticate, _ensure_token_valid, get_animals)
  - src/data_collector.py (ShelterDataCollector.collect_animals, collect_sample_data)

Modelling conventions:
  - JSON dict payloads become a flat structure of Option fields.  A nested
    section read through chained dict.get calls with empty-dict defaults
    behaves the same whether the section is missing or present with null
    members, so each nested section is a sub-structure of Option fields.
  - datetimes are modelled as the normalized ISO string the code would feed
    to datetime.fromisoformat (the Z suffix replaced by +00:00); wall-clock
    instants (scraped_at, last_updated, token times) are integers.
  - the HTTP environment is an oracle from a global request counter to the
    response of that request; a None response models a transport failure or
    a body without the expected key (both break the page loop identically).
  - unbounded while-loops are given fuel; a run that exhausts fuel is marked
    so it can never be confused with a normal return.
-/

namespace ShelterInsights

/-- breeds sub-object of a Petfinder animal payload (database.py lines 149, 161-164). -/
structure Breeds where
  primary : Option String
  secondary : Option String
  mixed : Option Bool
  unknown : Option Bool
deriving Repr, DecidableEq

/-- colors sub-object (database.py lines 150, 169-171). -/
structure Colors where
  primary : Option String
  secondary : Option String
  tertiary : Option String
deriving Repr, DecidableEq

/-- attributes sub-object (database.py lines 151, 173-177). -/
structure AttrFlags where
  spayed_neutered : Option Bool
  house_trained : Option Bool
  declawed : Option Bool
  special_needs : Option Bool
  shots_current : Option Bool
deriving Repr, DecidableEq

/-- environment sub-object (database.py lines 152, 178-180). -/
structure EnvFlags where
  children : Option Bool
  dogs : Option Bool
  cats : Option Bool
deriving Repr, DecidableEq

/-- contact.address sub-object (database.py lines 153-154, 184-187). -/
structure Address where
  city : Option String
  state : Option String
  postcode : Option String
  country : Option String
deriving Repr, DecidableEq

/-- One source JSON record as read by _create_animal_from_data /
_update_animal_from_data (database.py lines 146-208).  Only the keys the
code reads are modelled; the id field is an integer in the source feed. -/
structure Payload where
  id : Nat
  organization_id : Option String
  name : Option String
  species : Option String
  breeds : Breeds
  age : Option String
  gender : Option String
  size : Option String
  coat : Option String
  colors : Colors
  status : Option String
  attributes : AttrFlags
  environment : EnvFlags
  description : Option String
  photos : Option (List String)
  videos : Option (List String)
  address : Address
  published_at : Option String
  status_changed_at : Option String
  distance : Option Int
deriving Repr, DecidableEq

/-- One row of the animals table (database.py lines 11-70).  petfinder_id
carries the payload id (str() in the source is injective, so the Nat is kept);
scraped_at / last_updated are the clock values passed to the save. -/
structure Animal where
  petfinder_id : Nat
  organization_id : Option String
  name : Option String
  species : Option String
  breed_primary : Option String
  breed_secondary : Option String
  breed_mixed : Option Bool
  breed_unknown : Option Bool
  age : Option String
  gender : Option String
  size : Option String
  coat : Option String
  color_primary : Option String
  color_secondary : Option String
  color_tertiary : Option String
  status : Option String
  spayed_neutered : Option Bool
  house_trained : Option Bool
  declawed : Option Bool
  special_needs : Option Bool
  shots_current : Option Bool
  good_with_children : Option Bool
  good_with_dogs : Option Bool
  good_with_cats : Option Bool
  description : Option String
  photos : List String
  videos : List String
  city : Option String
  state : Option String
  postcode : Option String
  country : Option String
  published_at : Option String
  status_changed_at : Option String
  distance : Option Int
  scraped_at : Nat
  last_updated : Nat
  raw_data : Payload
deriving Repr, DecidableEq

/-- Timestamp parse: datetime.fromisoformat applied after the Z suffix is
replaced by the UTC offset +00:00, kept as the normalized string
(database.py lines 188-191, 204-206). -/
def parseTs (s : String) : String := s.replace "Z" "+00:00"

/-- Conditional timestamp parse: an absent or empty string is falsy and
yields null instead of being parsed (database.py lines 188-191). -/
def parseTsOpt (o : Option String) : Option String :=
  match o with
  | some s => if s.isEmpty then none else some (parseTs s)
  | none => none

/-- The create path _create_animal_from_data (database.py lines 146-194)
plus the column defaults scraped_at = last_updated = utcnow at insert. -/
def createAnimalFromData (data : Payload) (now : Nat) : Animal :=
  { petfinder_id := data.id
    organization_id := data.organization_id
    name := data.name
    species := data.species
    breed_primary := data.breeds.primary
    breed_secondary := data.breeds.secondary
    breed_mixed := data.breeds.mixed
    breed_unknown := data.breeds.unknown
    age := data.age
    gender := data.gender
    size := data.size
    coat := data.coat
    color_primary := data.colors.primary
    color_secondary := data.colors.secondary
    color_tertiary := data.colors.tertiary
    status := data.status
    spayed_neutered := data.attributes.spayed_neutered
    house_trained := data.attributes.house_trained
    declawed := data.attributes.declawed
    special_needs := data.attributes.special_needs
    shots_current := data.attributes.shots_current
    good_with_children := data.environment.children
    good_with_dogs := data.environment.dogs
    good_with_cats := data.environment.cats
    description := data.description
    photos := data.photos.getD []
    videos := data.videos.getD []
    city := data.address.city
    state := data.address.state
    postcode := data.address.postcode
    country := data.address.country
    published_at := parseTsOpt data.published_at
    status_changed_at := parseTsOpt data.status_changed_at
    distance := data.distance
    scraped_at := now
    last_updated := now
    raw_data := data }

/-- The update path _update_animal_from_data (database.py lines 196-208):
refreshes status, description, photos, conditionally status_changed_at,
and raw_data only. -/
def updateAnimalFromData (animal : Animal) (data : Payload) : Animal :=
  { animal with
    status := data.status
    description := data.description
    photos := data.photos.getD []
    status_changed_at :=
      match data.status_changed_at with
      | some s => if s.isEmpty then animal.status_changed_at else some (parseTs s)
      | none => animal.status_changed_at
    raw_data := data }

/-- session.query(...).first() returns the first matching row and the
subsequent mutation affects exactly that row: replace the first element
whose petfinder_id matches. -/
def replaceFirst : List Animal → Nat → Animal → List Animal
  | [], _, _ => []
  | a :: rest, pid, r =>
    if a.petfinder_id == pid then r :: rest else a :: replaceFirst rest pid r

/-- DatabaseManager.save_animal (database.py lines 117-144).  The store is
the list of rows of the animals table.  `fail` is the oracle for an exception
anywhere in the try block: the except clause rolls the transaction back
(store unchanged), reports, and returns None (lines 139-142). -/
def saveAnimal (store : List Animal) (data : Payload) (now : Nat) (fail : Bool) :
    List Animal × Option Animal :=
  if fail then (store, none)
  else
    match store.find? (fun a => a.petfinder_id == data.id) with
    | some existing =>
      let updated := { updateAnimalFromData existing data with last_updated := now }
      (replaceFirst store data.id updated, some updated)
    | none =>
      let animal := createAnimalFromData data now
      (store ++ [animal], some animal)

/-- The column of external ids of the stored rows. -/
def keys (store : List Animal) : List Nat := store.map (·.petfinder_id)

/-- A sequence of successful save_animal calls, one per payload, in order. -/
def feedAll (store : List Animal) (ps : List Payload) (now : Nat) : List Animal :=
  ps.foldl (fun s p => (saveAnimal s p now false).1) store

/-- A payload with the given id and every optional field null, photos and
videos absent: the minimal record the source could emit. -/
def mkPayload (n : Nat) : Payload :=
  { id := n
    organization_id := none
    name := none
    species := none
    breeds := ⟨none, none, none, none⟩
    age := none
    gender := none
    size := none
    coat := none
    colors := ⟨none, none, none⟩
    status := none
    attributes := ⟨none, none, none, none, none⟩
    environment := ⟨none, none, none⟩
    description := none
    photos := none
    videos := none
    address := ⟨none, none, none, none⟩
    published_at := none
    status_changed_at := none
    distance := none }

example : (feedAll [] [mkPayload 1, mkPayload 2] 0).length = 2 := by decide

example : (feedAll (feedAll [] [mkPayload 1, mkPayload 2] 0) [mkPayload 1, mkPayload 2] 1).length = 2 := by decide

/-- One response body of GET /animals: the results array and the
pagination object with its optional total_pages field
(petfinder_api.py lines 96, 104-105). -/
structure PFResponse where
  animals : List Payload
  totalPages : Option Nat
deriving Repr, DecidableEq

/-- The while-True page loop of PetfinderAPI.get_animals
(petfinder_api.py lines 83-111).  `src` maps the global request counter to
the response of that HTTP GET (none = transport failure or body without an
animals key, lines 93-94); `k` is the counter, `page` the loop counter,
`acc` the animals list, `log` the page numbers requested so far.  Returns
(animals, pages requested, next request counter).  Fuel bounds the loop. -/
def pfGetAux (src : Nat → Option PFResponse) :
    Nat → Nat → Nat → List Payload → List Nat → List Payload × List Nat × Nat
  | 0, k, _, acc, log => (acc, log, k)
  | fuel + 1, k, page, acc, log =>
    match src k with
    | none => (acc, log ++ [page], k + 1)
    | some r =>
      if r.animals.isEmpty then (acc, log ++ [page], k + 1)
      else
        if r.totalPages.getD 1 ≤ page then (acc ++ r.animals, log ++ [page], k + 1)
        else pfGetAux src fuel (k + 1) (page + 1) (acc ++ r.animals) (log ++ [page])

/-- PetfinderAPI.get_animals.  The second-to-last argument is the page
number the caller put into the filters; line 87 merges the filters into
params and then sets the page key to the local page counter, which starts
at 1 on line 84 and thereby overrides the caller page, so the argument is
discarded. -/
def pfGetAnimals (src : Nat → Option PFResponse) (fuel k : Nat)
    (_callerPage : Option Nat) : List Payload × List Nat × Nat :=
  pfGetAux src fuel k 1 [] []

/-- Token state: None before authentication, otherwise the token string
paired with the stored expiry instant (petfinder_api.py lines 15-16, 33-35:
token and token_expires are set together on success). -/
def TokenSt : Type := Option (String × Int)

/-- PetfinderAPI.authenticate (petfinder_api.py lines 18-42): on a
successful token exchange (resp = some (token, expires_in)) stores the
token and expiry now + expires_in - 300; on failure leaves state unchanged
and returns false. -/
def authenticate (st : TokenSt) (now : Int) (resp : Option (String × Int)) :
    TokenSt × Bool :=
  match resp with
  | some (tok, expiresIn) => (some (tok, now + (expiresIn - 300)), true)
  | none => (st, false)

/-- The trigger condition of PetfinderAPI._ensure_token_valid
(petfinder_api.py lines 44-47): re-authenticate when no token is held or
now >= token_expires. -/
def needsReauth (st : TokenSt) (now : Int) : Bool :=
  match st with
  | none => true
  | some (_, expires) => decide (expires ≤ now)

/-- Outcome of the per-page save loop of collect_animals
(data_collector.py lines 54-70): either the cap fired mid-page (the
function returns, line 66) or the page finished. -/
inductive BatchOut where
  | early (count : Nat) (store : List Animal) (saveIdx : Nat)
  | done (count : Nat) (store : List Animal) (saveIdx : Nat)
deriving Repr, DecidableEq

/-- Final state of a collect_animals run.  retval is the Python return
value (None from the bare return on auth failure, line 36); fuelOut marks
a run cut off by fuel rather than returning; log concatenates the pages
requested by every get_animals call; saves counts save_animal calls. -/
structure CollectSt where
  retval : Option Nat
  fuelOut : Bool
  store : List Animal
  log : List Nat
  saves : Nat
deriving Repr, DecidableEq

/-- Python truthiness of max_animals in `if max_animals and ...`
(data_collector.py line 64): None and 0 are both falsy. -/
def capActive : Option Nat → Bool
  | none => false
  | some n => n != 0

/-- The for-loop over one fetched batch (data_collector.py lines 54-70):
save each record; a save returning None is skipped (line 57 falsy check);
on success the count rises and, when the cap is active and reached, the
whole function returns immediately (lines 64-66).  `saveFail` is the
per-save failure oracle indexed by the global save counter. -/
def processBatch (saveFail : Nat → Bool) (now : Nat) (cap : Option Nat) :
    List Payload → List Animal → Nat → Nat → BatchOut
  | [], store, count, saveIdx => .done count store saveIdx
  | p :: rest, store, count, saveIdx =>
    match saveAnimal store p now (saveFail saveIdx) with
    | (store2, some _) =>
      if capActive cap && cap.getD 0 ≤ count + 1 then .early (count + 1) store2 (saveIdx + 1)
      else processBatch saveFail now cap rest store2 (count + 1) (saveIdx + 1)
    | (store2, none) => processBatch saveFail now cap rest store2 count (saveIdx + 1)

/-- The while-True loop of ShelterDataCollector.collect_animals
(data_collector.py lines 42-79).  Each iteration calls get_animals with
the current page in the filters (line 44-47), breaks on an empty batch
(lines 49-51), processes the batch, then increments page and repeats. -/
def collectLoop (src : Nat → Option PFResponse) (saveFail : Nat → Bool)
    (now : Nat) (cap : Option Nat) :
    Nat → Nat → Nat → Nat → Nat → List Animal → List Nat → CollectSt
  | 0, _, saveIdx, _, _, store, log =>
    { retval := none, fuelOut := true, store := store, log := log, saves := saveIdx }
  | fuel + 1, k, saveIdx, page, count, store, log =>
    let fetched := pfGetAnimals src (fuel + 1) k (some page)
    if fetched.1.isEmpty then
      { retval := some count, fuelOut := false, store := store,
        log := log ++ fetched.2.1, saves := saveIdx }
    else
      match processBatch saveFail now cap fetched.1 store count saveIdx with
      | .early c st si =>
        { retval := some c, fuelOut := false, store := st,
          log := log ++ fetched.2.1, saves := si }
      | .done c st si =>
        collectLoop src saveFail now cap fuel fetched.2.2 si (page + 1) c st (log ++ fetched.2.1)

/-- ShelterDataCollector.collect_animals (data_collector.py lines 24-79):
authenticate once (bare return of None on failure, lines 34-36), then run
the page loop starting at page 1 with zero collected. -/
def collectAnimals (authOK : Bool) (src : Nat → Option PFResponse)
    (saveFail : Nat → Bool) (now : Nat) (cap : Option Nat) (fuel : Nat)
    (store : List Animal) : CollectSt :=
  if authOK then collectLoop src saveFail now cap fuel 0 0 1 0 store []
  else { retval := none, fuelOut := false, store := store, log := [], saves := 0 }

/-- Python addition of two collect_animals return values
(data_collector.py line 102): adding None raises a TypeError that no
enclosing handler catches. -/
def pyAddNat : Option Nat → Option Nat → Except String Nat
  | some a, some b => .ok (a + b)
  | _, _ => .error "TypeError: unsupported operand types for +"

/-- ShelterDataCollector.collect_sample_data (data_collector.py lines
81-104): two collect_animals runs (dogs then cats, each capped at
sample_size // 2, sharing the database), then total = dogs + cats. -/
def collectSampleData (authOK : Bool) (srcDog srcCat : Nat → Option PFResponse)
    (failDog failCat : Nat → Bool) (now : Nat) (sampleSize : Nat) (fuel : Nat)
    (store : List Animal) : Except String Nat :=
  let dres := collectAnimals authOK srcDog failDog now (some (sampleSize / 2)) fuel store
  let cres := collectAnimals authOK srcCat failCat now (some (sampleSize / 2)) fuel dres.store
  pyAddNat dres.retval cres.retval

/-! Helper lemmas about the upsert store. -/

theorem feedAll_cons (store : List Animal) (p : Payload) (ps : List Payload) (now : Nat) :
    feedAll store (p :: ps) now = feedAll (saveAnimal store p now false).1 ps now := rfl

theorem keys_replaceFirst (store : List Animal) (pid : Nat) (r : Animal)
    (h : r.petfinder_id = pid) : keys (replaceFirst store pid r) = keys store := by
  induction store with
  | nil => rfl
  | cons a rest ih =>
    by_cases hc : a.petfinder_id = pid
    · simp [replaceFirst, hc, keys, h]
    · simp only [keys, List.map_cons] at ih ⊢
      simp [replaceFirst, hc, ih]

theorem updated_petfinder_id (a : Animal) (p : Payload) (now : Nat) :
    ({ updateAnimalFromData a p with last_updated := now } : Animal).petfinder_id
      = a.petfinder_id := by
  simp [updateAnimalFromData]

theorem keys_saveAnimal (store : List Animal) (p : Payload) (now : Nat) :
    keys (saveAnimal store p now false).1 =
      if p.id ∈ keys store then keys store else keys store ++ [p.id] := by
  unfold saveAnimal
  cases hf : store.find? (fun a => a.petfinder_id == p.id) with
  | none =>
    have hnotin : p.id ∉ keys store := by
      intro hmem
      obtain ⟨a, ha, hpid⟩ := List.mem_map.mp hmem
      have := List.find?_eq_none.mp hf a ha
      simp [hpid] at this
    rw [if_neg hnotin]
    simp [keys, createAnimalFromData]
  | some a =>
    have hpid : a.petfinder_id = p.id := by
      have := List.find?_some hf
      simpa using this
    have hmem : p.id ∈ keys store := by
      exact List.mem_map.mpr ⟨a, List.mem_of_find?_eq_some hf, hpid⟩
    have hrep := keys_replaceFirst store p.id
      { updateAnimalFromData a p with last_updated := now }
      (by rw [updated_petfinder_id]; exact hpid)
    simp [hmem, hrep]

theorem keys_feedAll_fresh (ps : List Payload) (store : List Animal) (now : Nat)
    (hnd : (keys store ++ ps.map (·.id)).Nodup) :
    keys (feedAll store ps now) = keys store ++ ps.map (·.id) := by
  induction ps generalizing store with
  | nil => simp [feedAll]
  | cons p rest ih =>
    have hnotin : p.id ∉ keys store := by
      intro hmem
      have hdisj := (List.nodup_append.mp hnd).2.2
      exact hdisj hmem (by simp)
    have hk := keys_saveAnimal store p now
    rw [if_neg hnotin] at hk
    rw [feedAll_cons, ih (saveAnimal store p now false).1]
    · rw [hk, List.append_assoc]
      simp
    · rw [hk, List.append_assoc]
      simpa using hnd

theorem keys_feedAll_update (qs : List Payload) (store : List Animal) (now : Nat)
    (hin : ∀ q ∈ qs, q.id ∈ keys store) :
    keys (feedAll store qs now) = keys store := by
  induction qs generalizing store with
  | nil => simp [feedAll]
  | cons q rest ih =>
    have hmem : q.id ∈ keys store := hin q (by simp)
    have hk := keys_saveAnimal store q now
    rw [if_pos hmem] at hk
    rw [feedAll_cons, ih (saveAnimal store q now false).1]
    · exact hk
    · intro x hx
      rw [hk]
      exact hin x (by simp [hx])

theorem length_eq_length_keys (store : List Animal) : store.length = (keys store).length := by
  simp [keys]

/-- C1: Every sequence of save_animal calls keeps at most one stored row per
external id: a save preserves distinctness of the petfinder_id column, N
payloads with distinct ids fed into an empty store leave exactly N rows, and
feeding the same N ids again still leaves exactly N rows with the same id
column (updates in place, no duplicate inserted). -/
theorem c1_upsert_unique :
    (∀ (store : List Animal) (p : Payload) (now : Nat) (fail : Bool),
        (keys store).Nodup → (keys (saveAnimal store p now fail).1).Nodup) ∧
    (∀ (ps : List Payload) (now : Nat), (ps.map (·.id)).Nodup →
        (feedAll [] ps now).length = ps.length ∧
        ∀ (qs : List Payload) (now2 : Nat), qs.map (·.id) = ps.map (·.id) →
          (feedAll (feedAll [] ps now) qs now2).length = ps.length ∧
          keys (feedAll (feedAll [] ps now) qs now2) = keys (feedAll [] ps now)) := by
  constructor
  · intro store p now fail hnd
    cases fail with
    | true => simpa [saveAnimal] using hnd
    | false =>
      rw [keys_saveAnimal]
      by_cases hmem : p.id ∈ keys store
      · simpa [hmem] using hnd
      · simp only [hmem, if_false]
        simp [List.nodup_append, hnd, hmem]
  · intro ps now hnd
    have hkeys1 : keys (feedAll [] ps now) = ps.map (·.id) := by
      have := keys_feedAll_fresh ps [] now (by simpa [keys] using hnd)
      simpa [keys] using this
    have hlen1 : (feedAll [] ps now).length = ps.length := by
      rw [length_eq_length_keys, hkeys1, List.length_map]
    refine ⟨hlen1, ?_⟩
    intro qs now2 hqs
    have hin : ∀ q ∈ qs, q.id ∈ keys (feedAll [] ps now) := by
      intro q hq
      rw [hkeys1, ← hqs]
      exact List.mem_map.mpr ⟨q, hq, rfl⟩
    have hkeys2 := keys_feedAll_update qs (feedAll [] ps now) now2 hin
    refine ⟨?_, hkeys2⟩
    rw [length_eq_length_keys, hkeys2, ← length_eq_length_keys, hlen1]

/-- Witness for C1 at a concrete input: two distinct ids fed twice. -/
theorem c1_upsert_unique_witness :
    (keys (saveAnimal [] (mkPayload 1) 0 false).1).Nodup ∧
    (feedAll [] [mkPayload 1, mkPayload 2] 0).length = 2 ∧
    (feedAll (feedAll [] [mkPayload 1, mkPayload 2] 0) [mkPayload 1, mkPayload 2] 3).length = 2 ∧
    keys (feedAll (feedAll [] [mkPayload 1, mkPayload 2] 0) [mkPayload 1, mkPayload 2] 3)
      = keys (feedAll [] [mkPayload 1, mkPayload 2] 0) := by
  refine ⟨c1_upsert_unique.1 [] (mkPayload 1) 0 false (by simp [keys]), ?_, ?_, ?_⟩
  · exact (c1_upsert_unique.2 [mkPayload 1, mkPayload 2] 0 (by decide)).1
  · exact ((c1_upsert_unique.2 [mkPayload 1, mkPayload 2] 0 (by decide)).2
      [mkPayload 1, mkPayload 2] 3 rfl).1
  · exact ((c1_upsert_unique.2 [mkPayload 1, mkPayload 2] 0 (by decide)).2
      [mkPayload 1, mkPayload 2] 3 rfl).2

/-- C4: when the external id of the payload already has a stored row, the save
refreshes only status, description, photos, status-changed timestamp,
provenance payload and the last-updated timestamp; every other column of
the row keeps the value from its original ingestion. -/
theorem c4_update_frame :
    ∀ (store : List Animal) (p : Payload) (now : Nat) (a : Animal),
      store.find? (fun x => x.petfinder_id == p.id) = some a →
      ∃ r, (saveAnimal store p now false).2 = some r ∧
        r.last_updated = now ∧
        r.scraped_at = a.scraped_at ∧
        r.status = p.status ∧ r.description = p.description ∧
        r.photos = p.photos.getD [] ∧ r.raw_data = p ∧
        r.petfinder_id = a.petfinder_id ∧ r.organization_id = a.organization_id ∧
        r.name = a.name ∧ r.species = a.species ∧
        r.breed_primary = a.breed_primary ∧ r.breed_secondary = a.breed_secondary ∧
        r.breed_mixed = a.breed_mixed ∧ r.breed_unknown = a.breed_unknown ∧
        r.age = a.age ∧ r.gender = a.gender ∧ r.size = a.size ∧ r.coat = a.coat ∧
        r.color_primary = a.color_primary ∧ r.color_secondary = a.color_secondary ∧
        r.color_tertiary = a.color_tertiary ∧
        r.spayed_neutered = a.spayed_neutered ∧ r.house_trained = a.house_trained ∧
        r.declawed = a.declawed ∧ r.special_needs = a.special_needs ∧
        r.shots_current = a.shots_current ∧
        r.good_with_children = a.good_with_children ∧
        r.good_with_dogs = a.good_with_dogs ∧ r.good_with_cats = a.good_with_cats ∧
        r.city = a.city ∧ r.state = a.state ∧ r.postcode = a.postcode ∧
        r.country = a.country ∧
        r.published_at = a.published_at ∧ r.distance = a.distance ∧
        r.videos = a.videos := by
  intro store p now a h
  refine ⟨{ updateAnimalFromData a p with last_updated := now }, ?_, ?_⟩
  · simp [saveAnimal, h]
  · simp [updateAnimalFromData]

/-- Witness for C4: a stored row updated by a payload with a new status. -/
theorem c4_update_frame_witness :
    ([createAnimalFromData (mkPayload 5) 0].find?
        (fun x => x.petfinder_id == ({ mkPayload 5 with status := some "adopted" } : Payload).id)
      = some (createAnimalFromData (mkPayload 5) 0)) ∧
    ∃ r, (saveAnimal [createAnimalFromData (mkPayload 5) 0]
            { mkPayload 5 with status := some "adopted" } 7 false).2 = some r ∧
          r.last_updated = 7 ∧ r.scraped_at = 0 := by
  refine ⟨rfl, ?_⟩
  obtain ⟨r, hr, hlu, hsc, _⟩ := c4_update_frame [createAnimalFromData (mkPayload 5) 0]
    { mkPayload 5 with status := some "adopted" } 7 (createAnimalFromData (mkPayload 5) 0) rfl
  exact ⟨r, hr, hlu, hsc⟩

/-- C5: save_animal is transactional per record: on a failure anywhere in
the save, the store is unchanged by the call and None is returned instead
of the saved entity, and the enclosing batch loop continues with the next
record of the page. -/
theorem c5_save_rollback :
    (∀ (store : List Animal) (p : Payload) (now : Nat),
        saveAnimal store p now true = (store, none)) ∧
    (∀ (saveFail : Nat → Bool) (now : Nat) (cap : Option Nat) (p : Payload)
        (rest : List Payload) (store : List Animal) (count saveIdx : Nat),
        saveFail saveIdx = true →
        processBatch saveFail now cap (p :: rest) store count saveIdx =
          processBatch saveFail now cap rest store count (saveIdx + 1)) := by
  constructor
  · intro store p now
    rfl
  · intro f now cap p rest store count i h
    simp [processBatch, saveAnimal, h]

/-- Witness for C5: a failing save followed by the loop moving on. -/
theorem c5_save_rollback_witness :
    saveAnimal [] (mkPayload 9) 0 true = ([], none) ∧
    processBatch (fun _ => true) 0 none [mkPayload 9] [] 0 0 =
      processBatch (fun _ => true) 0 none [] [] 0 1 :=
  ⟨c5_save_rollback.1 [] (mkPayload 9) 0,
   c5_save_rollback.2 (fun _ => true) 0 none (mkPayload 9) [] [] 0 0 rfl⟩

/-- A source declaring total_pages = 3 whose pages 1-3 are non-empty and
whose page 4 is empty; requests arrive in order, so the request counter
coincides with page - 1. -/
def src6 : Nat → Option PFResponse := fun k =>
  if k = 0 then some ⟨[mkPayload 101], some 3⟩
  else if k = 1 then some ⟨[mkPayload 102], some 3⟩
  else if k = 2 then some ⟨[mkPayload 103], some 3⟩
  else some ⟨[], some 3⟩

/-- C6: against a source declaring total_pages = 3 with non-empty pages 1-3
and an empty page 4, get_animals requests exactly pages 1, 2, 3 in order
(three requests, page 4 never fetched) and returns the concatenation of the
three batches; in general the page loop continues exactly while the fetched
batch is non-empty and the declared total page count has not been reached. -/
theorem c6_pagination :
    (pfGetAux src6 10 0 1 [] [] =
        ([mkPayload 101, mkPayload 102, mkPayload 103], [1, 2, 3], 3)) ∧
    (∀ (src : Nat → Option PFResponse) (fuel k page : Nat) (acc : List Payload)
        (log : List Nat) (r : PFResponse), src k = some r → r.animals ≠ [] →
        page < r.totalPages.getD 1 →
        pfGetAux src (fuel + 1) k page acc log =
          pfGetAux src fuel (k + 1) (page + 1) (acc ++ r.animals) (log ++ [page])) ∧
    (∀ (src : Nat → Option PFResponse) (fuel k page : Nat) (acc : List Payload)
        (log : List Nat) (r : PFResponse), src k = some r → r.animals ≠ [] →
        r.totalPages.getD 1 ≤ page →
        pfGetAux src (fuel + 1) k page acc log = (acc ++ r.animals, log ++ [page], k + 1)) ∧
    (∀ (src : Nat → Option PFResponse) (fuel k page : Nat) (acc : List Payload)
        (log : List Nat) (r : PFResponse), src k = some r → r.animals = [] →
        pfGetAux src (fuel + 1) k page acc log = (acc, log ++ [page], k + 1)) := by
  refine ⟨by decide, ?_, ?_, ?_⟩
  · intro src fuel k page acc log r hk hne hlt
    simp [pfGetAux, hk, hne, Nat.not_le.mpr hlt]
  · intro src fuel k page acc log r hk hne hle
    simp [pfGetAux, hk, hne, hle]
  · intro src fuel k page acc log r hk he
    simp [pfGetAux, hk, he]

/-- Witness for C6: the three step shapes at concrete inputs on src6. -/
theorem c6_pagination_witness :
    pfGetAux src6 5 0 1 [] [] = pfGetAux src6 4 1 2 [mkPayload 101] [1] ∧
    pfGetAux src6 5 2 3 [] [] = ([mkPayload 103], [3], 3) ∧
    pfGetAux src6 5 3 4 [] [] = ([], [4], 4) :=
  ⟨c6_pagination.2.1 src6 4 0 1 [] [] ⟨[mkPayload 101], some 3⟩ rfl (by decide) (by decide),
   c6_pagination.2.2.1 src6 4 2 3 [] [] ⟨[mkPayload 103], some 3⟩ rfl (by decide) (by decide),
   c6_pagination.2.2.2 src6 4 3 4 [] [] ⟨[], some 3⟩ rfl rfl⟩

/-- A source whose page-1 response omits total_pages and carries a full
batch of 100 records; any further request yields an empty batch. -/
def src7full : Nat → Option PFResponse := fun k =>
  if k = 0 then some ⟨List.replicate 100 (mkPayload 7), none⟩ else some ⟨[], none⟩

/-- A source that always declares total_pages = 2 with a one-record batch. -/
def srcDecl : Nat → Option PFResponse := fun _ => some ⟨[mkPayload 41], some 2⟩

/-- C7: when the pagination metadata omits total_pages, get_animals treats
the total as exactly one page: the first page is the only request issued,
whatever the batch holds (even a full batch of 100), so the loop never runs
unboundedly on missing metadata; when a total is declared, the loop stops
at a page exactly when the page has reached the declared total, and
otherwise continues to the next page. -/
theorem c7_missing_total :
    (∀ (src : Nat → Option PFResponse) (fuel k : Nat) (b : List Payload),
        src k = some ⟨b, none⟩ → b ≠ [] →
        pfGetAux src (fuel + 1) k 1 [] [] = (b, [1], k + 1)) ∧
    (pfGetAux src7full 10 0 1 [] [] = (List.replicate 100 (mkPayload 7), [1], 1)) ∧
    (∀ (src : Nat → Option PFResponse) (fuel k page : Nat) (acc : List Payload)
        (log : List Nat) (b : List Payload) (t : Nat),
        src k = some ⟨b, some t⟩ → b ≠ [] →
        (t ≤ page →
          pfGetAux src (fuel + 1) k page acc log = (acc ++ b, log ++ [page], k + 1)) ∧
        (page < t →
          pfGetAux src (fuel + 1) k page acc log =
            pfGetAux src fuel (k + 1) (page + 1) (acc ++ b) (log ++ [page]))) := by
  refine ⟨?_, by decide, ?_⟩
  · intro src fuel k b hk hne
    simp [pfGetAux, hk, hne]
  · intro src fuel k page acc log b t hk hne
    constructor
    · intro hle
      simp [pfGetAux, hk, hne, hle]
    · intro hlt
      simp [pfGetAux, hk, hne, Nat.not_le.mpr hlt]

/-- Witness for C7: a missing-total source stops after page 1; a declared
total of 2 makes page 1 continue to page 2. -/
theorem c7_missing_total_witness :
    pfGetAux src7full 10 0 1 [] [] = (List.replicate 100 (mkPayload 7), [1], 1) ∧
    pfGetAux srcDecl 4 0 1 [] [] = pfGetAux srcDecl 3 1 2 [mkPayload 41] [1] :=
  ⟨c7_missing_total.1 src7full 9 0 (List.replicate 100 (mkPayload 7)) rfl (by simp),
   (c7_missing_total.2.2 srcDecl 3 0 1 [] [] [mkPayload 41] 2 rfl (by decide)).2 (by decide)⟩

/-- C8 counterexample: with expires_in = 600 the stored expiry is
issue + 300, so a request exactly 300 seconds after issue - which is
before 301 seconds - already triggers re-authentication, contradicting
the claim that requests before 301 seconds do not. -/
theorem c8_margin_counterexample :
    (authenticate none 0 (some ("tok", 600))).1 = some ("tok", 300) ∧
    needsReauth (authenticate none 0 (some ("tok", 600))).1 300 = true ∧
    (300 : Int) < 301 := by
  refine ⟨rfl, rfl, by decide⟩

/-- C8 amended: a successful authenticate stores expiry = issue time +
server ttl - 300; for expires_in = 600 a request made t seconds after
issue triggers re-authentication exactly when t >= 300 (in particular at
301 or more seconds, and never strictly before 300 seconds). -/
theorem c8_margin_amended :
    (∀ (st : TokenSt) (now : Int) (tok : String) (ttl : Int),
        (authenticate st now (some (tok, ttl))).1 = some (tok, now + (ttl - 300))) ∧
    (∀ (issue t : Int) (tok : String),
        needsReauth (authenticate none issue (some (tok, 600))).1 (issue + t)
          = decide (300 ≤ t)) := by
  constructor
  · intro st now tok ttl
    rfl
  · intro issue t tok
    simp only [authenticate, needsReauth]
    rw [decide_eq_decide]
    omega

/-- A source yielding 10 records (external ids 1-10) on a single declared
page; any further request fails. -/
def src9 : Nat → Option PFResponse := fun k =>
  if k = 0 then some ⟨(List.range 10).map (fun i => mkPayload (i + 1)), some 1⟩ else none

/-- C9: with max_count = 5 against a source yielding 10 records on one
page, collect_animals saves exactly the first 5 records and returns count
5 mid-page: the store holds the 5 rows, only 5 save calls were made (the
remaining 5 records are never processed), and a single page was fetched. -/
theorem c9_cap_enforcement :
    collectAnimals true src9 (fun _ => false) 0 (some 5) 10 [] =
      { retval := some 5, fuelOut := false,
        store := (List.range 5).map (fun i => createAnimalFromData (mkPayload (i + 1)) 0),
        log := [1], saves := 5 } := by decide

theorem processBatch_cap_zero (f : Nat → Bool) (now : Nat) :
    ∀ (batch : List Payload) (store : List Animal) (count i : Nat),
      processBatch f now (some 0) batch store count i =
        processBatch f now none batch store count i := by
  intro batch
  induction batch with
  | nil => intro store count i; rfl
  | cons p rest ih =>
    intro store count i
    cases hs : saveAnimal store p now (f i) with
    | mk st2 opt =>
      cases opt with
      | some a => simp [processBatch, hs, capActive, ih]
      | none => simp [processBatch, hs, ih]

theorem collectLoop_cap_zero (src : Nat → Option PFResponse) (f : Nat → Bool) (now : Nat) :
    ∀ (fuel k si page count : Nat) (store : List Animal) (log : List Nat),
      collectLoop src f now (some 0) fuel k si page count store log =
        collectLoop src f now none fuel k si page count store log := by
  intro fuel
  induction fuel with
  | zero => intros; rfl
  | succ n ih =>
    intro k si page count store log
    simp only [collectLoop]
    rw [processBatch_cap_zero]
    by_cases he : (pfGetAnimals src (n + 1) k (some page)).1.isEmpty
    · simp [he]
    · cases hp : processBatch f now none (pfGetAnimals src (n + 1) k (some page)).1
        store count si with
      | early c st sj => simp [he, hp]
      | done c st sj => simp [he, hp, ih]

/-- Page 1 holds two records on a single declared page; the re-query an
iteration later finds the source exhausted (empty batch). -/
def src10 : Nat → Option PFResponse := fun k =>
  if k = 0 then some ⟨[mkPayload 21, mkPayload 22], some 1⟩
  else if k = 1 then some ⟨[], some 1⟩ else none

/-- C10: max_animals = 0 is falsy, so the cap test is skipped exactly as
for None: a run with cap 0 is identical to a run with no cap for every
environment, and on a source with two records it saves both and returns 2
at exhaustion instead of returning immediately with zero saved. -/
theorem c10_zero_cap :
    (∀ (src : Nat → Option PFResponse) (saveFail : Nat → Bool) (now fuel : Nat)
        (store : List Animal),
        collectAnimals true src saveFail now (some 0) fuel store =
          collectAnimals true src saveFail now none fuel store) ∧
    collectAnimals true src10 (fun _ => false) 0 (some 0) 5 [] =
      { retval := some 2, fuelOut := false,
        store := [createAnimalFromData (mkPayload 21) 0, createAnimalFromData (mkPayload 22) 0],
        log := [1, 1], saves := 2 } := by
  constructor
  · intro src saveFail now fuel store
    simp only [collectAnimals, if_pos]
    exact collectLoop_cap_zero src saveFail now fuel 0 0 1 0 store []
  · decide

/-- A static two-page source: every odd-numbered request (pages requested
in order restart at 1 on every get_animals call) returns page 1, every
even-numbered one page 2, both non-empty, total_pages = 2 throughout. -/
def src2p : Nat → Option PFResponse := fun k =>
  if k % 2 = 0 then some ⟨[mkPayload 31], some 2⟩ else some ⟨[mkPayload 32], some 2⟩

theorem pfGetAux_acc_ne_nil (src : Nat → Option PFResponse) :
    ∀ (fuel k page : Nat) (acc : List Payload) (log : List Nat),
      acc ≠ [] → (pfGetAux src fuel k page acc log).1 ≠ [] := by
  intro fuel
  induction fuel with
  | zero => intro k page acc log h; exact h
  | succ n ih =>
    intro k page acc log h
    simp only [pfGetAux]
    cases hs : src k with
    | none => exact h
    | some r =>
      by_cases he : r.animals.isEmpty
      · simp [he, h]
      · by_cases hle : r.totalPages.getD 1 ≤ page
        · simp [he, hle, h]
        · simp only [he, hle, if_false, Bool.false_eq_true, if_neg]
          exact ih (k + 1) (page + 1) (acc ++ r.animals) (log ++ [page]) (by simp [h])

theorem src2p_spec (k : Nat) : ∃ x, src2p k = some ⟨[x], some 2⟩ := by
  by_cases h : k % 2 = 0
  · exact ⟨mkPayload 31, by simp [src2p, h]⟩
  · exact ⟨mkPayload 32, by simp [src2p, h]⟩

theorem pfGetAnimals_src2p_ne_nil (fuel k : Nat) (cp : Option Nat) :
    (pfGetAnimals src2p (fuel + 1) k cp).1 ≠ [] := by
  obtain ⟨x, hx⟩ := src2p_spec k
  unfold pfGetAnimals
  simp only [pfGetAux, hx]
  norm_num
  exact pfGetAux_acc_ne_nil src2p fuel (k + 1) 2 [x] [1] (by simp)

theorem processBatch_none_done (f : Nat → Bool) (now : Nat) :
    ∀ (batch : List Payload) (store : List Animal) (count i : Nat),
      ∃ c st si, processBatch f now none batch store count i = .done c st si := by
  intro batch
  induction batch with
  | nil => exact fun store count i => ⟨count, store, i, rfl⟩
  | cons p rest ih =>
    intro store count i
    cases hs : saveAnimal store p now (f i) with
    | mk st2 opt =>
      cases opt with
      | some a => simpa [processBatch, hs, capActive] using ih st2 (count + 1) (i + 1)
      | none => simpa [processBatch, hs] using ih st2 count (i + 1)

theorem collectLoop_src2p_fuelOut (f : Nat → Bool) (now : Nat) :
    ∀ (fuel k si page count : Nat) (store : List Animal) (log : List Nat),
      (collectLoop src2p f now none fuel k si page count store log).fuelOut = true := by
  intro fuel
  induction fuel with
  | zero => intros; rfl
  | succ n ih =>
    intro k si page count store log
    have hne := pfGetAnimals_src2p_ne_nil n k (some page)
    have hb : (pfGetAnimals src2p (n + 1) k (some page)).1.isEmpty = false :=
      List.isEmpty_eq_false.mpr hne
    obtain ⟨c, st, sj, hp⟩ := processBatch_none_done f now
      (pfGetAnimals src2p (n + 1) k (some page)).1 store count si
    simp [collectLoop, hb, hp, ih]

/-- C2 fails on the code: get_animals discards the caller-supplied page
(params sets its own page counter, starting at 1), so one iteration of the
collect_animals loop fetches every page, not one - against the two-page
source the first iteration issues requests for pages 1 and 2 and returns
both batches, the second iteration (caller page 2) again requests pages 1
and 2 - and with no cap the loop never observes an empty batch: every
finite fuel is exhausted instead of terminating at source exhaustion. -/
theorem c2_one_page_per_iteration_bug :
    pfGetAnimals src2p 10 0 (some 1) = ([mkPayload 31, mkPayload 32], [1, 2], 2) ∧
    (pfGetAnimals src2p 10 2 (some 2)).2.1 = [1, 2] ∧
    (∀ fuel : Nat,
      (collectAnimals true src2p (fun _ => false) 0 none fuel []).fuelOut = true) := by
  refine ⟨by decide, by decide, ?_⟩
  intro fuel
  simpa [collectAnimals] using collectLoop_src2p_fuelOut (fun _ => false) 0 fuel 0 0 1 0 [] []

/-- C3 fails on the code: when authentication fails, collect_animals
returns None (bare return), and collect_sample_data then evaluates
dogs_collected + cats_collected, which raises an uncaught TypeError -
the crash escapes the entry point.  The run is not a fuel artifact:
both inner runs returned normally. -/
theorem c3_crash_on_auth_failure :
    collectSampleData false (fun _ => none) (fun _ => none) (fun _ => false) (fun _ => false)
        0 1000 5 [] = Except.error "TypeError: unsupported operand types for +" ∧
    (collectAnimals false (fun _ => none) (fun _ => false) 0 (some 500) 5 []).retval = none ∧
    (collectAnimals false (fun _ => none) (fun _ => false) 0 (some 500) 5 []).fuelOut = false :=
  ⟨rfl, rfl, rfl⟩

end ShelterInsights
